import Mathlib

/-
Shallow embedding of the Assessment-agent backend (src/server.py) and proofs
about it.  The external generative-language completion service is abstracted
as an oracle value of type ModelOutcome: each call either returns raw text or
raises (the source wraps every call in try/except).  Request handlers are
modelled as total Lean functions from the request data plus the oracle
outcomes of the model calls they make, to an explicit response value; an
uncaught Python exception is modelled as a distinguished response constructor.
String primitives mirror the Python ones on the ASCII fragment the fixed
label strings live in.
-/

namespace Assessment

/-- Python str.strip and the regex class backslash-s recognise these ASCII
whitespace characters (the Unicode extras play no role for the fixed ASCII
labels and answers modelled here). -/
def pyIsSpace (c : Char) : Bool :=
  c = ' ' || c = '\t' || c = '\n' || c = '\r' || c = '\x0b' || c = '\x0c'

/-- Python str.strip: drop whitespace from both ends. -/
def pyStrip (s : String) : String :=
  ⟨((s.data.dropWhile pyIsSpace).reverse.dropWhile pyIsSpace).reverse⟩

/-- Python str.upper on the ASCII fragment (Char.toUpper maps a-z to A-Z and
leaves everything else unchanged, exactly as Python does on ASCII). -/
def pyUpper (s : String) : String :=
  ⟨s.data.map Char.toUpper⟩

/-- Python truthiness of an optional string value: None and the empty string
are falsy, every other string is truthy. -/
def pyTruthy : Option String → Bool
  | none => false
  | some s => s != ""

/-- Index of the first occurrence of pat as a contiguous sublist, if any. -/
def firstOcc (pat : List Char) : List Char → Option Nat
  | [] => if pat.isPrefixOf ([] : List Char) then some 0 else none
  | c :: t => if pat.isPrefixOf (c :: t) then some 0 else (firstOcc pat t).map (· + 1)

/-- Does pat occur as a substring of s? -/
def occurs (pat s : String) : Bool :=
  (firstOcc pat.data s.data).isSome

/-- The suffix of s just after the first occurrence of pat, if pat occurs. -/
def afterFirst (pat s : String) : Option (List Char) :=
  (firstOcc pat.data s.data).map (fun i => s.data.drop (i + pat.data.length))

/-- Outcome of one call to the completion service: the raw reply text, or an
exception carrying its message (Python str(e)). -/
inductive ModelOutcome where
  | ok (text : String)
  | fail (err : String)
  deriving DecidableEq, Repr

/- ----------------------------------------------------------------------
Response parsing for the subjective-with-answer branch (server.py 274-296).
The four fields are extracted with re.search; the regexes are modelled by
their exact matching semantics:

re.search("Score:\x5cs*(.*?)\x5cn", raw)  (no DOTALL, so the dot excludes
the newline): a match exists iff "Score:" occurs and a newline follows
somewhere after the first occurrence.  The greedy whitespace run is taken
maximally; the lazy group then runs to the next newline.  If every newline
of the suffix lies inside the maximal whitespace run, the engine backtracks
the whitespace run to end at the last newline and the group is empty.

re.search("Feedback:\x5cs*(.*?)(?=\x5cnSkill Gap:|$)", raw, re.DOTALL): a
match exists iff "Feedback:" occurs.  After the maximal whitespace run the
lazy group stops at the earliest of: the next occurrence of the literal
"\x5cnSkill Gap:", the end of the string, or (Python $ semantics) just
before a newline that ends the string.  Same shape for "Skill Gap:" with
stop label "\x5cnCorrect Approach/Solution Highlights:".

re.search("Correct Approach/Solution Highlights:\x5cs*(.*)", raw, re.DOTALL):
a match exists iff the label occurs; the greedy group takes everything
after the maximal whitespace run.
---------------------------------------------------------------------- -/

/-- Capture of the lazy group (.*?) ended by the lookahead
(?=nextLabel|$) under DOTALL, applied to the suffix r that follows the
greedy whitespace run: text up to the earliest stop position. -/
def lazyGroup (nextLabel : List Char) (r : List Char) : List Char :=
  let dollar := if r.getLast? = some '\n' then r.length - 1 else r.length
  match firstOcc nextLabel r with
  | some j => r.take (min j dollar)
  | none => r.take dollar

/-- Captured group of re.search("Score:\x5cs*(.*?)\x5cn", raw), if the regex
matches. -/
def scoreGroup (raw : String) : Option String :=
  match afterFirst "Score:" raw with
  | none => none
  | some rest =>
    if rest.contains '\n' then
      let r := rest.dropWhile pyIsSpace
      if r.contains '\n' then some ⟨r.takeWhile (· != '\n')⟩ else some ""
    else none

/-- Captured group of the Feedback regex, if it matches. -/
def feedbackGroup (raw : String) : Option String :=
  (afterFirst "Feedback:" raw).map
    (fun rest => ⟨lazyGroup "\nSkill Gap:".data (rest.dropWhile pyIsSpace)⟩)

/-- Captured group of the Skill Gap regex, if it matches. -/
def skillGapGroup (raw : String) : Option String :=
  (afterFirst "Skill Gap:" raw).map
    (fun rest =>
      ⟨lazyGroup "\nCorrect Approach/Solution Highlights:".data (rest.dropWhile pyIsSpace)⟩)

/-- Captured group of the Correct Approach/Solution Highlights regex, if it
matches. -/
def solutionGroup (raw : String) : Option String :=
  (afterFirst "Correct Approach/Solution Highlights:" raw).map
    (fun rest => ⟨rest.dropWhile pyIsSpace⟩)

/-- The JSON object built by evaluate_answer.  raw_gemini_response is the
extra diagnostic key added only when the primary subjective evaluation call
raises (server.py 301). -/
structure EvalResult where
  score : String
  feedback : String
  skill_gap : String
  solution_highlights : String
  raw_gemini_response : Option String := none
  deriving DecidableEq, Repr

/-- Field-by-field parse of the model reply in the subjective-with-answer
branch (server.py 274-296): each group, when its regex matched, is stripped;
a failed match leaves score at "N/A" and gives the other three fields their
fixed fallback strings. -/
def parseSubjEval (raw : String) : EvalResult where
  score :=
    match scoreGroup raw with
    | some g => pyStrip g
    | none => "N/A"
  feedback :=
    match feedbackGroup raw with
    | some g => pyStrip g
    | none => "Could not parse detailed feedback from AI."
  skill_gap :=
    match skillGapGroup raw with
    | some g => pyStrip g
    | none => "Could not parse skill gap analysis from AI."
  solution_highlights :=
    match solutionGroup raw with
    | some g => pyStrip g
    | none => "Could not parse solution highlights from AI."

/-- Response of the evaluate_answer handler: a JSON result (HTTP 200), a
client error (HTTP 400), or an uncaught exception escaping the handler. -/
inductive EvalResponse where
  | ok (result : EvalResult)
  | clientError (error : String)
  | crash
  deriving DecidableEq, Repr

/-- JSON body of a POST /evaluate_answer request (server.py 192-197); every
field is read with data.get and may be absent. -/
structure EvalRequest where
  question_text : Option String
  user_answer : Option String
  question_type : Option String
  correct_answer : Option String
  rubric : Option String
  deriving DecidableEq, Repr

/-- solution_highlights value produced by the MCQ explanation call
(server.py 213-218): the stripped reply, or the fixed string when the call
raises. -/
def explanationField : ModelOutcome → String
  | .ok t => pyStrip t
  | .fail _ => "Could not generate solution explanation due to an AI error."

/-- mcq branch of evaluate_answer (server.py 205-232).  The source first
runs the explanation call when the answer is missing or mismatched, then
fills score/feedback/skill_gap by the same conditions; the two tests are
fused here into one decision tree with identical outcomes.  When
user_answer is truthy and correct_answer is None, the comparison
user_answer.strip().upper() != correct_answer.strip().upper() on line 207
raises AttributeError (None.strip()), an uncaught exception; when
user_answer is falsy the or short-circuits and correct_answer is never
touched (it is only interpolated into the prompt f-string). -/
def mcqBranch (ua ca : Option String) (oracle : ModelOutcome) : EvalResponse :=
  if pyTruthy ua then
    match ca with
    | none => .crash
    | some c =>
      if pyUpper (pyStrip (ua.getD "")) = pyUpper (pyStrip c) then
        .ok { score := "Correct", feedback := "Your answer is correct!",
              skill_gap := "N/A", solution_highlights := "N/A" }
      else
        .ok { score := "Incorrect", feedback := "Your answer is incorrect.",
              skill_gap := "Conceptual Understanding",
              solution_highlights := explanationField oracle }
  else
    .ok { score := "Incorrect", feedback := "No answer provided.",
          skill_gap := "Incomplete Answer",
          solution_highlights := explanationField oracle }

/-- subjective branch of evaluate_answer (server.py 234-301).  A missing or
blank answer scores 0/10 with a solution-highlights call; otherwise the
evaluation call is made and its reply parsed, and if that call raises the
handler still returns 200 with the generic failure feedback and the raw
error detail (score, skill_gap and solution_highlights keep their "N/A"
defaults from line 203). -/
def subjectiveBranch (ua : Option String) (oracle : ModelOutcome) : EvalResponse :=
  if !(pyTruthy ua) || pyStrip (ua.getD "") == "" then
    .ok { score := "0/10",
          feedback := "No answer provided for this subjective question.",
          skill_gap := "No Answer Provided",
          solution_highlights :=
            match oracle with
            | .ok t => pyStrip t
            | .fail _ => "Could not generate solution highlights due to an AI error." }
  else
    match oracle with
    | .ok raw => .ok (parseSubjEval raw)
    | .fail e =>
      .ok { score := "N/A",
            feedback := "Failed to evaluate subjective answer due to an AI error.",
            skill_gap := "N/A", solution_highlights := "N/A",
            raw_gemini_response := some e }

/-- evaluate_answer handler (server.py 185-314).  The source rejects the
request when question_text or question_type is falsy, then dispatches on
question_type; the coding branch is a fixed placeholder and any other type
is a client error.  Each path makes at most one completion call, so a
single oracle outcome suffices. -/
def evaluate_answer (req : EvalRequest) (oracle : ModelOutcome) : EvalResponse :=
  if pyTruthy req.question_text && pyTruthy req.question_type then
    if req.question_type = some "mcq" then
      mcqBranch req.user_answer req.correct_answer oracle
    else if req.question_type = some "subjective" then
      subjectiveBranch req.user_answer oracle
    else if req.question_type = some "coding" then
      .ok { score := "N/A",
            feedback := "Coding test evaluation is a complex feature that requires a secure execution environment and test cases. This is a placeholder.",
            skill_gap := "Not applicable for placeholder coding evaluation.",
            solution_highlights := "N/A" }
    else .clientError "Invalid question type."
  else .clientError "Missing essential question parameters for evaluation."

/- ----------------------------------------------------------------------
generate_assessment (server.py 51-182).
---------------------------------------------------------------------- -/

/-- Python round(total * 2 / 3) (server.py 97), modelled exactly on the
rationals: 2t/3 has fractional part 0, 1/3 or 2/3, never exactly one half,
so round-half-to-even never fires and the result is the floor of
2t/3 + 1/2 = (4t+3)/6.  Lean Int division is Euclidean, which is floor
division for the positive literal divisor. -/
def roundTwoThirds (t : Int) : Int :=
  (4 * t + 3) / 6

/-- Question-count allocation when both "mcq" and "subjective" are selected
(server.py 95-107): round(total*2/3) MCQs, remainder subjective; for a
positive total each zero count is forced to 1, and if the forced pair sums
past the total the strictly larger count is shrunk, the subjective count on
a tie. -/
def questionCounts (total : Int) : Int × Int :=
  let num_mcqs := roundTwoThirds total
  let num_subjective := total - num_mcqs
  if 0 < total then
    let m := if num_mcqs = 0 then 1 else num_mcqs
    let s := if num_subjective = 0 then 1 else num_subjective
    if total < m + s then
      if s < m then (total - s, s) else (m, total - m)
    else (m, s)
  else (num_mcqs, num_subjective)

/-- Whether syllabus_file.save into the temporary file (server.py 74)
completes or raises an IO error. -/
inductive SaveOutcome where
  | ok
  | ioError
  deriving DecidableEq, Repr

/-- An uploaded syllabus document, by what happens to it server-side: how
saving goes and what parse_pdf extracts (parse_pdf catches every exception
internally and returns None, modelled as none; an empty extraction is the
empty string). -/
structure SyllabusUpload where
  save : SaveOutcome
  parsed : Option String
  deriving DecidableEq, Repr

/-- Multipart form of a POST /generate_assessment request (server.py 56-66).
question_types is none when json.loads raises on the encoded parameter. -/
structure GenRequest where
  topic : Option String
  total_questions : Int
  question_types : Option (List String)
  syllabus_pdf : Option SyllabusUpload
  deriving DecidableEq, Repr

/-- Response of generate_assessment: the two generated text blocks (200), a
client error (400), a handled server error (500), or an exception escaping
the handler. -/
inductive GenResponse where
  | ok (mcqs subjective_questions : String)
  | clientError (error : String)
  | serverError (error : String)
  | unhandled
  deriving DecidableEq, Repr

/-- Observable outcome of one generate_assessment request: the response,
how many completion calls were made, and whether the temporary file created
for an uploaded syllabus is still on disk afterwards (false when no file
was created). -/
structure GenOutcome where
  response : GenResponse
  modelCalls : Nat
  tempFileRemains : Bool
  deriving DecidableEq, Repr

/-- The try block of server.py 121-182: up to two sequential generation
calls, one per positive count; the first exception aborts the request with
the fixed 500 message. -/
def generateCalls (nm ns : Int) (mcqO subjO : ModelOutcome) : GenResponse × Nat :=
  if 0 < nm then
    match mcqO with
    | .fail _ => (.serverError "Failed to generate assessment. Please try again.", 1)
    | .ok mt =>
      if 0 < ns then
        match subjO with
        | .fail _ => (.serverError "Failed to generate assessment. Please try again.", 2)
        | .ok st => (.ok mt st, 2)
      else (.ok mt "", 1)
  else
    if 0 < ns then
      match subjO with
      | .fail _ => (.serverError "Failed to generate assessment. Please try again.", 1)
      | .ok st => (.ok "" st, 1)
    else (.ok "" "", 0)

/-- Count selection and generation (server.py 94-182): the elif chain on
question_types membership, then the generation calls.  A list containing
neither "mcq" nor "subjective" (including the default ["both"]) is a 400. -/
def generateCore (total : Int) (qts : List String) (mcqO subjO : ModelOutcome) :
    GenResponse × Nat :=
  if qts.contains "mcq" && qts.contains "subjective" then
    generateCalls (questionCounts total).1 (questionCounts total).2 mcqO subjO
  else if qts.contains "mcq" then
    generateCalls total 0 mcqO subjO
  else if qts.contains "subjective" then
    generateCalls 0 total mcqO subjO
  else (.clientError "No valid question type selected.", 0)

/-- generate_assessment handler (server.py 51-182).  Order of the source:
question_types is JSON-decoded first (400 on failure, before any file IO);
with an upload, the temporary file is created with delete=False and saved
into inside the with block - if the save raises, the exception escapes the
handler and os.unlink on line 78 is never reached, so the file remains;
on a successful save the file is unlinked unconditionally before the falsy
check on the extracted text (500 on falsy); without an upload a falsy topic
is a 400.  No completion call happens on any of the early-exit paths. -/
def generate_assessment (req : GenRequest) (mcqO subjO : ModelOutcome) : GenOutcome :=
  match req.question_types with
  | none => ⟨.clientError "Invalid question_types parameter.", 0, false⟩
  | some qts =>
    match req.syllabus_pdf with
    | some up =>
      match up.save with
      | .ioError => ⟨.unhandled, 0, true⟩
      | .ok =>
        if pyTruthy up.parsed then
          ⟨(generateCore req.total_questions qts mcqO subjO).1,
           (generateCore req.total_questions qts mcqO subjO).2, false⟩
        else ⟨.serverError "Failed to parse PDF syllabus.", 0, false⟩
    | none =>
      if pyTruthy req.topic then
        ⟨(generateCore req.total_questions qts mcqO subjO).1,
         (generateCore req.total_questions qts mcqO subjO).2, false⟩
      else ⟨.clientError "Please provide a topic or upload a syllabus PDF.", 0, false⟩

/- ----------------------------------------------------------------------
check_plagiarism (server.py 317-354) and recommend_tests (server.py 357-389).
---------------------------------------------------------------------- -/

/-- Response of check_plagiarism: the report field (200), a client error
(400) or a server error (500). -/
inductive PlagResponse where
  | report (plagiarism_report : String)
  | clientError (error : String)
  | serverError (error : String)
  deriving DecidableEq, Repr

/-- JSON body of a POST /check_plagiarism request; known_corpus defaults to
the empty list when absent. -/
structure PlagRequest where
  user_answer : Option String
  known_corpus : List String
  deriving DecidableEq, Repr

/-- check_plagiarism handler (server.py 317-354), paired with the number of
completion calls made: missing answer is a 400; a nonempty corpus triggers
the single model call (500 on failure); an empty corpus short-circuits to
the fixed report without calling the model. -/
def check_plagiarism (req : PlagRequest) (oracle : ModelOutcome) : PlagResponse × Nat :=
  if !(pyTruthy req.user_answer) then
    (.clientError "No answer provided for plagiarism check.", 0)
  else if req.known_corpus ≠ [] then
    match oracle with
    | .ok t => (.report t, 1)
    | .fail _ => (.serverError "Failed to check plagiarism due to AI error.", 1)
  else
    (.report "No corpus provided for comparison. Cannot perform a detailed plagiarism check.", 0)

/-- Response of recommend_tests: the recommendations field (200) or a
server error (500). -/
inductive RecResponse where
  | recommendations (text : String)
  | serverError (error : String)
  deriving DecidableEq, Repr

/-- recommend_tests handler (server.py 357-389), paired with the number of
completion calls made: empty skill_gaps short-circuits to the fixed message
without calling the model; otherwise the single model call is made (500 on
failure).  user_profile only shapes the prompt, never the response. -/
def recommend_tests (skill_gaps : List String) (_user_profile : String)
    (oracle : ModelOutcome) : RecResponse × Nat :=
  if skill_gaps = [] then
    (.recommendations "No specific skill gaps identified to recommend new tests.", 0)
  else
    match oracle with
    | .ok t => (.recommendations t, 1)
    | .fail _ => (.serverError "Failed to generate recommendations due to AI error.", 1)

/- ----------------------------------------------------------------------
Helper lemmas (shared across the claim theorems below).
---------------------------------------------------------------------- -/

theorem pyTruthy_some {s : String} (h : s ≠ "") : pyTruthy (some s) = true := by
  simp [pyTruthy, h]

theorem afterFirst_eq_none {pat s : String} (h : occurs pat s = false) :
    afterFirst pat s = none := by
  unfold occurs at h
  unfold afterFirst
  cases hfo : firstOcc pat.data s.data with
  | none => rfl
  | some i => rw [hfo] at h; simp at h

theorem questionCounts_parts {t : Int} (h : 1 < t) :
    1 ≤ (questionCounts t).1 ∧ 1 ≤ (questionCounts t).2
    ∧ (questionCounts t).1 + (questionCounts t).2 = t := by
  simp only [questionCounts, roundTwoThirds]
  split_ifs <;> simp_all <;> omega

theorem questionCounts_sum {t : Int} (h : 0 < t) :
    (questionCounts t).1 + (questionCounts t).2 = t := by
  rcases (by omega : t = 1 ∨ 1 < t) with h1 | h1
  · subst h1; decide
  · exact (questionCounts_parts h1).2.2

/- ----------------------------------------------------------------------
Claim theorems.
---------------------------------------------------------------------- -/

/-- C1: with both "mcq" and "subjective" selected, the allocation assigns
round(total*2/3) MCQs and the rest subjective, with the forced minimums and
readjustment of the code; in particular total 10 gives (7, 3), every total
above 1 gives two counts that are each at least 1 and sum to the total, and
every positive total sums exactly. -/
theorem C1_question_count_allocation :
    questionCounts 10 = (7, 3)
    ∧ (∀ t : Int, 0 < t → (questionCounts t).1 + (questionCounts t).2 = t)
    ∧ (∀ t : Int, 1 < t →
        1 ≤ (questionCounts t).1 ∧ 1 ≤ (questionCounts t).2
        ∧ (questionCounts t).1 + (questionCounts t).2 = t) := by
  refine ⟨by decide, ?_, ?_⟩
  · intro t ht; exact questionCounts_sum ht
  · intro t ht; exact questionCounts_parts ht

/-- C1 witness: the allocation claims instantiated at totals 10 and 5. -/
theorem C1_question_count_allocation_witness :
    questionCounts 10 = (7, 3)
    ∧ (1 ≤ (questionCounts 5).1 ∧ 1 ≤ (questionCounts 5).2
        ∧ (questionCounts 5).1 + (questionCounts 5).2 = 5) :=
  ⟨C1_question_count_allocation.1,
   C1_question_count_allocation.2.2 5 (by decide)⟩

/-- C5: the claim that the temporary syllabus file is deleted on every exit
path fails on the exception path.  The file is created with delete=False
and saved into inside the with block; when the save raises, the exception
escapes the handler before the os.unlink on line 78, so the file remains on
disk, while on a successful save every path (parse failure included, since
parse_pdf catches its own exceptions) unlinks the file. -/
theorem C5_temp_file_leak_on_save_exception
    (topic : Option String) (t : Int) (qts : List String)
    (parsed : Option String) (o₁ o₂ : ModelOutcome) :
    (generate_assessment ⟨topic, t, some qts, some ⟨.ioError, parsed⟩⟩ o₁ o₂).tempFileRemains
      = true
    ∧ (generate_assessment ⟨topic, t, some qts, some ⟨.ioError, parsed⟩⟩ o₁ o₂).response
      = .unhandled
    ∧ (generate_assessment ⟨topic, t, some qts, some ⟨.ok, parsed⟩⟩ o₁ o₂).tempFileRemains
      = false := by
  refine ⟨rfl, rfl, ?_⟩
  cases hp : pyTruthy parsed <;> simp [generate_assessment, hp]

/-- C7: with the required user_answer present, an empty (or absent, which
defaults to empty) known_corpus makes check_plagiarism answer the fixed
no-corpus report with zero completion calls; and empty (or absent)
skill_gaps makes recommend_tests answer its fixed message with zero
completion calls, for any user_profile. -/
theorem C7_short_circuits :
    (∀ (ua : String) (o : ModelOutcome), ua ≠ "" →
      check_plagiarism ⟨some ua, []⟩ o
        = (.report "No corpus provided for comparison. Cannot perform a detailed plagiarism check.", 0))
    ∧ (∀ (prof : String) (o : ModelOutcome),
      recommend_tests [] prof o
        = (.recommendations "No specific skill gaps identified to recommend new tests.", 0)) := by
  constructor
  · intro ua o h
    simp [check_plagiarism, pyTruthy_some h]
  · intro prof o
    rfl

/-- C7 witness: both short-circuits instantiated, with a failing oracle to
underline that the model is never consulted. -/
theorem C7_short_circuits_witness :
    check_plagiarism ⟨some "my answer", []⟩ (.fail "err")
      = (.report "No corpus provided for comparison. Cannot perform a detailed plagiarism check.", 0)
    ∧ recommend_tests [] "profile" (.fail "err")
      = (.recommendations "No specific skill gaps identified to recommend new tests.", 0) :=
  ⟨C7_short_circuits.1 "my answer" (.fail "err") (by decide),
   C7_short_circuits.2 "profile" (.fail "err")⟩

/-- C8: a generate request with no usable topic and no syllabus upload gets
a client-error response and zero completion calls, whatever the other
fields and oracle outcomes are (an undecodable question_types parameter is
likewise a client error before any call). -/
theorem C8_generate_requires_topic_or_syllabus
    (req : GenRequest) (o₁ o₂ : ModelOutcome)
    (hs : req.syllabus_pdf = none) (ht : pyTruthy req.topic = false) :
    (∃ msg, (generate_assessment req o₁ o₂).response = .clientError msg)
    ∧ (generate_assessment req o₁ o₂).modelCalls = 0 := by
  obtain ⟨topic, t, qts, syl⟩ := req
  cases hs
  simp only at ht
  cases qts with
  | none => exact ⟨⟨"Invalid question_types parameter.", rfl⟩, rfl⟩
  | some l =>
    simp [generate_assessment, ht]

/-- C8 witness: a request with neither topic nor syllabus is rejected
without a model call. -/
theorem C8_generate_requires_topic_or_syllabus_witness :
    (∃ msg, (generate_assessment ⟨none, 10, some ["mcq"], none⟩ (.ok "a") (.ok "b")).response
        = .clientError msg)
    ∧ (generate_assessment ⟨none, 10, some ["mcq"], none⟩ (.ok "a") (.ok "b")).modelCalls = 0 :=
  C8_generate_requires_topic_or_syllabus ⟨none, 10, some ["mcq"], none⟩ (.ok "a") (.ok "b")
    rfl rfl

/-- C2 counterexample: with user_answer absent, a model explanation whose
stripped text is exactly "N/A" lands verbatim in solution_highlights, so
the field is not non-"N/A" as the claim asserts (score, feedback and
skill_gap do match the claim). -/
theorem C2_counterexample_explanation_can_be_NA :
    evaluate_answer ⟨some "Q", none, some "mcq", some "B", none⟩ (.ok "N/A")
      = .ok { score := "Incorrect", feedback := "No answer provided.",
              skill_gap := "Incomplete Answer", solution_highlights := "N/A" } := by
  rfl

/-- C2 amended: the mcq result table holds with solution_highlights in the
non-matching rows equal to the stripped model explanation, or the fixed
error string when that call fails (hence "N/A" there only when the model
reply itself strips to "N/A"); absent means None or empty, and the match is
case-insensitive on stripped strings. -/
theorem C2_mcq_evaluation_table (qtext : String) (hq : qtext ≠ "")
    (ua : Option String) (ca : String) (rub : Option String) (o : ModelOutcome) :
    evaluate_answer ⟨some qtext, ua, some "mcq", some ca, rub⟩ o =
      (if pyTruthy ua = false then
        .ok { score := "Incorrect", feedback := "No answer provided.",
              skill_gap := "Incomplete Answer", solution_highlights := explanationField o }
      else if pyUpper (pyStrip (ua.getD "")) = pyUpper (pyStrip ca) then
        .ok { score := "Correct", feedback := "Your answer is correct!",
              skill_gap := "N/A", solution_highlights := "N/A" }
      else
        .ok { score := "Incorrect", feedback := "Your answer is incorrect.",
              skill_gap := "Conceptual Understanding",
              solution_highlights := explanationField o }) := by
  have hqt : pyTruthy (some qtext) = true := pyTruthy_some hq
  have hmq : pyTruthy (some "mcq") = true := rfl
  by_cases hu : pyTruthy ua = true
  · by_cases hc : pyUpper (pyStrip (ua.getD "")) = pyUpper (pyStrip ca)
    · simp [evaluate_answer, mcqBranch, hqt, hmq, hu, hc]
    · simp [evaluate_answer, mcqBranch, hqt, hmq, hu, hc]
  · have hu' : pyTruthy ua = false := by simpa using hu
    simp [evaluate_answer, mcqBranch, hqt, hmq, hu']

/-- C2 witness: a lowercase answer matching an uppercase correct answer is
scored Correct with the claimed fields. -/
theorem C2_mcq_evaluation_table_witness :
    evaluate_answer ⟨some "Q", some "c", some "mcq", some "C", none⟩ (.ok "expl")
      = .ok { score := "Correct", feedback := "Your answer is correct!",
              skill_gap := "N/A", solution_highlights := "N/A" } := by
  rw [C2_mcq_evaluation_table "Q" (by decide) (some "c") "C" none (.ok "expl")]
  decide

/-- C3 counterexample: a reply with no "Score:" label leaves score at the
"N/A" default, which is not a "could not parse" fallback string, while the
other three labels parse normally. -/
theorem C3_counterexample_score_fallback_is_NA :
    evaluate_answer ⟨some "Q", some "a", some "subjective", none, none⟩
        (.ok "Feedback: f\nSkill Gap: g\nCorrect Approach/Solution Highlights: h")
      = .ok { score := "N/A", feedback := "f", skill_gap := "g", solution_highlights := "h" }
    ∧ ("Could not parse".data.isPrefixOf "N/A".data) = false := by
  exact ⟨by decide, by decide⟩

/-- C3 amended: in the subjective-with-answer branch every model reply
yields a complete 200 result (a missing label is never fatal); a field
whose label is absent gets its fixed fallback, which is the "Could not
parse ..." string for feedback, skill gap and solution highlights but the
default "N/A" for score (score also falls back to "N/A" when its label is
present but no newline follows, since its regex requires one). -/
theorem C3_parse_fallbacks_never_fatal (qtext ans raw : String) (ca rub : Option String)
    (hq : qtext ≠ "") (ha : pyStrip ans ≠ "") :
    ∃ r : EvalResult,
      evaluate_answer ⟨some qtext, some ans, some "subjective", ca, rub⟩ (.ok raw) = .ok r
      ∧ (scoreGroup raw = none → r.score = "N/A")
      ∧ (occurs "Score:" raw = false → r.score = "N/A")
      ∧ (occurs "Feedback:" raw = false →
          r.feedback = "Could not parse detailed feedback from AI.")
      ∧ (occurs "Skill Gap:" raw = false →
          r.skill_gap = "Could not parse skill gap analysis from AI.")
      ∧ (occurs "Correct Approach/Solution Highlights:" raw = false →
          r.solution_highlights = "Could not parse solution highlights from AI.") := by
  have hans : ans ≠ "" := by
    intro h; exact ha (by rw [h]; rfl)
  have hqt : pyTruthy (some qtext) = true := pyTruthy_some hq
  have hat : pyTruthy (some ans) = true := pyTruthy_some hans
  have hst : pyTruthy (some "subjective") = true := rfl
  refine ⟨parseSubjEval raw, ?_, ?_, ?_, ?_, ?_, ?_⟩
  · simp [evaluate_answer, subjectiveBranch, hqt, hat, hst, ha]
  · intro h; simp [parseSubjEval, h]
  · intro h
    simp [parseSubjEval, scoreGroup, afterFirst_eq_none h]
  · intro h
    simp [parseSubjEval, feedbackGroup, afterFirst_eq_none h]
  · intro h
    simp [parseSubjEval, skillGapGroup, afterFirst_eq_none h]
  · intro h
    simp [parseSubjEval, solutionGroup, afterFirst_eq_none h]

/-- C3 witness: on the empty reply every label is absent, the request still
succeeds and all four fallbacks appear. -/
theorem C3_parse_fallbacks_never_fatal_witness :
    ∃ r : EvalResult,
      evaluate_answer ⟨some "Q", some "a", some "subjective", none, none⟩ (.ok "") = .ok r
      ∧ (scoreGroup "" = none → r.score = "N/A")
      ∧ (occurs "Score:" "" = false → r.score = "N/A")
      ∧ (occurs "Feedback:" "" = false →
          r.feedback = "Could not parse detailed feedback from AI.")
      ∧ (occurs "Skill Gap:" "" = false →
          r.skill_gap = "Could not parse skill gap analysis from AI.")
      ∧ (occurs "Correct Approach/Solution Highlights:" "" = false →
          r.solution_highlights = "Could not parse solution highlights from AI.") :=
  C3_parse_fallbacks_never_fatal "Q" "a" "" none none (by decide) (by decide)

/-- C4 counterexample: a completion failure on the primary subjective
evaluation call does not produce a request-level 5xx; the handler catches
it and returns a 200 result whose feedback is the generic failure message,
with the raw error detail attached. -/
theorem C4_counterexample_subjective_failure_is_200 :
    evaluate_answer ⟨some "Q", some "my answer", some "subjective", none, none⟩
        (.fail "quota exceeded")
      = .ok { score := "N/A",
              feedback := "Failed to evaluate subjective answer due to an AI error.",
              skill_gap := "N/A", solution_highlights := "N/A",
              raw_gemini_response := some "quota exceeded" } := by
  rfl

/-- C4 amended: completion failures on generation, plagiarism and
recommendation calls are request-level 5xx with the fixed generic message;
a failure on the primary subjective evaluation is recovered in-response
(200 with the generic failure feedback and raw detail); failures on the
non-critical calls (mcq explanation, no-answer solution highlights) only
downgrade that single field to its fixed string. -/
theorem C4_model_failure_handling :
    (∀ (topic e : String) (o : ModelOutcome) (t : Int), topic ≠ "" → 1 < t →
      (generate_assessment ⟨some topic, t, some ["mcq", "subjective"], none⟩ (.fail e) o).response
        = .serverError "Failed to generate assessment. Please try again.")
    ∧ (∀ (ua e : String) (corpus : List String), ua ≠ "" → corpus ≠ [] →
      check_plagiarism ⟨some ua, corpus⟩ (.fail e)
        = (.serverError "Failed to check plagiarism due to AI error.", 1))
    ∧ (∀ (gaps : List String) (prof e : String), gaps ≠ [] →
      recommend_tests gaps prof (.fail e)
        = (.serverError "Failed to generate recommendations due to AI error.", 1))
    ∧ (∀ (qtext ans e : String) (ca rub : Option String), qtext ≠ "" → pyStrip ans ≠ "" →
      evaluate_answer ⟨some qtext, some ans, some "subjective", ca, rub⟩ (.fail e)
        = .ok { score := "N/A",
                feedback := "Failed to evaluate subjective answer due to an AI error.",
                skill_gap := "N/A", solution_highlights := "N/A",
                raw_gemini_response := some e })
    ∧ (∀ (qtext ca e : String) (rub : Option String), qtext ≠ "" →
      evaluate_answer ⟨some qtext, none, some "mcq", some ca, rub⟩ (.fail e)
        = .ok { score := "Incorrect", feedback := "No answer provided.",
                skill_gap := "Incomplete Answer",
                solution_highlights := "Could not generate solution explanation due to an AI error." })
    ∧ (∀ (qtext e : String) (ca rub : Option String), qtext ≠ "" →
      evaluate_answer ⟨some qtext, none, some "subjective", ca, rub⟩ (.fail e)
        = .ok { score := "0/10",
                feedback := "No answer provided for this subjective question.",
                skill_gap := "No Answer Provided",
                solution_highlights := "Could not generate solution highlights due to an AI error." }) := by
  refine ⟨?_, ?_, ?_, ?_, ?_, ?_⟩
  · intro topic e o t htop ht
    have hm : 0 < (questionCounts t).1 := by
      have := (questionCounts_parts ht).1; omega
    have hb : ((["mcq", "subjective"] : List String).contains "mcq"
        && (["mcq", "subjective"] : List String).contains "subjective") = true := rfl
    simp [generate_assessment, pyTruthy_some htop, generateCore, hb, generateCalls, hm]
  · intro ua e corpus hua hc
    simp [check_plagiarism, pyTruthy_some hua, hc]
  · intro gaps prof e hg
    simp [recommend_tests, hg]
  · intro qtext ans e ca rub hq ha
    have hans : ans ≠ "" := by intro h; exact ha (by rw [h]; rfl)
    have hst : pyTruthy (some "subjective") = true := rfl
    simp [evaluate_answer, subjectiveBranch, pyTruthy_some hq, pyTruthy_some hans, hst, ha]
  · intro qtext ca e rub hq
    have hmq : pyTruthy (some "mcq") = true := rfl
    have hno : pyTruthy none = false := rfl
    simp [evaluate_answer, mcqBranch, explanationField, pyTruthy_some hq, hmq, hno]
  · intro qtext e ca rub hq
    have hst : pyTruthy (some "subjective") = true := rfl
    have hno : pyTruthy none = false := rfl
    simp [evaluate_answer, subjectiveBranch, pyTruthy_some hq, hst, hno]

/-- C4 witness: all six failure modes instantiated at concrete inputs. -/
theorem C4_model_failure_handling_witness :
    (generate_assessment ⟨some "algebra", 10, some ["mcq", "subjective"], none⟩
        (.fail "down") (.ok "s")).response
      = .serverError "Failed to generate assessment. Please try again."
    ∧ check_plagiarism ⟨some "text", ["other"]⟩ (.fail "down")
      = (.serverError "Failed to check plagiarism due to AI error.", 1)
    ∧ recommend_tests ["Algebra"] "profile" (.fail "down")
      = (.serverError "Failed to generate recommendations due to AI error.", 1)
    ∧ evaluate_answer ⟨some "Q", some "ans", some "subjective", none, none⟩ (.fail "down")
      = .ok { score := "N/A",
              feedback := "Failed to evaluate subjective answer due to an AI error.",
              skill_gap := "N/A", solution_highlights := "N/A",
              raw_gemini_response := some "down" }
    ∧ evaluate_answer ⟨some "Q", none, some "mcq", some "B", none⟩ (.fail "down")
      = .ok { score := "Incorrect", feedback := "No answer provided.",
              skill_gap := "Incomplete Answer",
              solution_highlights := "Could not generate solution explanation due to an AI error." }
    ∧ evaluate_answer ⟨some "Q", none, some "subjective", none, none⟩ (.fail "down")
      = .ok { score := "0/10",
              feedback := "No answer provided for this subjective question.",
              skill_gap := "No Answer Provided",
              solution_highlights := "Could not generate solution highlights due to an AI error." } :=
  ⟨C4_model_failure_handling.1 "algebra" "down" (.ok "s") 10 (by decide) (by decide),
   C4_model_failure_handling.2.1 "text" "down" ["other"] (by decide) (by decide),
   C4_model_failure_handling.2.2.1 ["Algebra"] "profile" "down" (by decide),
   C4_model_failure_handling.2.2.2.1 "Q" "ans" "down" none none (by decide) (by decide),
   C4_model_failure_handling.2.2.2.2.1 "Q" "B" "down" none (by decide),
   C4_model_failure_handling.2.2.2.2.2 "Q" "down" none none (by decide)⟩

/-- C6: a subjective evaluation with an absent or blank answer scores 0/10
with the fixed feedback and skill gap, and solution_highlights carries the
stripped model key-points summary, or its fixed error string when that call
fails; the request itself succeeds either way. -/
theorem C6_subjective_no_answer (qtext : String) (hq : qtext ≠ "")
    (ua ca rub : Option String) (o : ModelOutcome)
    (hua : pyTruthy ua = false ∨ pyStrip (ua.getD "") = "") :
    evaluate_answer ⟨some qtext, ua, some "subjective", ca, rub⟩ o
      = .ok { score := "0/10",
              feedback := "No answer provided for this subjective question.",
              skill_gap := "No Answer Provided",
              solution_highlights :=
                match o with
                | .ok t => pyStrip t
                | .fail _ => "Could not generate solution highlights due to an AI error." } := by
  have hqt : pyTruthy (some qtext) = true := pyTruthy_some hq
  have hst : pyTruthy (some "subjective") = true := rfl
  rcases hua with h | h
  · simp [evaluate_answer, subjectiveBranch, hqt, hst, h]
  · simp [evaluate_answer, subjectiveBranch, hqt, hst, h]

/-- C6 witness: the empty answer gets 0/10, skill gap No Answer Provided,
and the model key points in solution_highlights. -/
theorem C6_subjective_no_answer_witness :
    evaluate_answer ⟨some "Q", some "", some "subjective", none, none⟩ (.ok "key points")
      = .ok { score := "0/10",
              feedback := "No answer provided for this subjective question.",
              skill_gap := "No Answer Provided",
              solution_highlights := "key points" } :=
  C6_subjective_no_answer "Q" (by decide) (some "") none none (.ok "key points")
    (Or.inl (by decide))

/-- Projection of an evaluate_answer response onto the three
non-explanation fields, none for a non-200 outcome. -/
def coreFields : EvalResponse → Option (String × String × String)
  | .ok r => some (r.score, r.feedback, r.skill_gap)
  | .clientError _ => none
  | .crash => none

theorem mcqBranch_core_oracle_free (ua ca : Option String) (o o' : ModelOutcome) :
    coreFields (mcqBranch ua ca o) = coreFields (mcqBranch ua ca o') := by
  unfold mcqBranch
  by_cases hu : pyTruthy ua = true
  · simp only [hu, if_true]
    cases ca with
    | none => rfl
    | some c =>
      by_cases hc : pyUpper (pyStrip (ua.getD "")) = pyUpper (pyStrip c)
      · simp only [if_pos hc]
      · simp only [if_neg hc]; rfl
  · have hu' : pyTruthy ua = false := by simpa using hu
    simp only [hu', Bool.false_eq_true, if_false]
    rfl

/-- C9: mcq evaluation is deterministic in score, feedback and skill_gap:
for identical question_text, user_answer and correct_answer the three
fields are identical whatever the completion service replies on either run,
so no model call is needed to produce them. -/
theorem C9_mcq_deterministic (qtext ua ca rub : Option String) (o o' : ModelOutcome) :
    coreFields (evaluate_answer ⟨qtext, ua, some "mcq", ca, rub⟩ o)
      = coreFields (evaluate_answer ⟨qtext, ua, some "mcq", ca, rub⟩ o') := by
  have hmq : pyTruthy (some "mcq") = true := rfl
  by_cases hq : pyTruthy qtext = true
  · simp [evaluate_answer, hq, hmq]
    exact mcqBranch_core_oracle_free ua ca o o'
  · have hq' : pyTruthy qtext = false := by simpa using hq
    simp [evaluate_answer, hq', hmq]

/-- C10: the mcq branch is partial in correct_answer: with question_text
and user_answer present and correct_answer absent, line 207 evaluates
None.strip() and the AttributeError escapes the handler, so no response is
produced at all - in particular not a client-error rejection. -/
theorem C10_mcq_crash_on_missing_correct_answer (o : ModelOutcome) :
    evaluate_answer ⟨some "What is 2+2?", some "A", some "mcq", none, none⟩ o
      = .crash := by
  rfl

end Assessment
